import Mathlib

/-!
# Cloud Cost Guard — shallow embedding and verification

This file embeds the analysis engine of the `cloud-cost-guard` repository
(`backend/server.py`, `backend/cli.py`, `app.py`) as executable Lean
definitions and proves/refutes the specification claims about it.

Modelling conventions:
* Python floats are modelled as `ℚ`; `round(x, 2)` / `round(x, 1)` are
  modelled as exact half-up decimal rounding (`round2` / `round1`).
* Calendar days and sample hours are modelled as `Int` indices; "now" and
  "today" are explicit parameters instead of wall-clock reads.
* The MongoDB store is modelled as a record of three lists (`Store`), and
  each aggregation pipeline is translated into list filtering/grouping.
* `random.randint(a, b)` draws inside a detector are modelled as explicit
  draw functions passed to the detector, so that nondeterminism is visible
  in the signature.
* Presentational `Finding` fields (title, commands, evidence text,
  risk/implementation metadata) are omitted; the fields the claims speak
  about (type, resource/product, flagged day, severity, confidence,
  monthly savings estimate) are kept.
-/

namespace CloudCostGuard

/-- Half-up rounding to 2 decimal places, the model of Python `round(x, 2)`. -/
def round2 (x : ℚ) : ℚ := (⌊x * 100 + 1/2⌋ : ℤ) / 100

/-- Half-up rounding to 1 decimal place, the model of Python `round(x, 1)`. -/
def round1 (x : ℚ) : ℚ := (⌊x * 10 + 1/2⌋ : ℤ) / 10

/-- Python's `needle in haystack` substring test. -/
def strContains (haystack needle : String) : Bool :=
  decide (needle.data <:+: haystack.data)

/-- Deduplication keeping the first occurrence of each element, the model of
the key order produced by building a dict / `distinct` over grouped rows. -/
def firstDedup [DecidableEq α] : List α → List α
  | [] => []
  | a :: rest => a :: firstDedup (rest.filter (· ≠ a))
termination_by l => l.length
decreasing_by
  simp only [List.length_cons]
  exact Nat.lt_succ_of_le (List.length_filter_le _ _)

theorem mem_firstDedup [DecidableEq α] (a : α) :
    ∀ l : List α, a ∈ firstDedup l ↔ a ∈ l
  | [] => by rw [firstDedup]
  | b :: rest => by
    rw [firstDedup]
    by_cases hab : a = b
    · subst hab; simp
    · simp only [List.mem_cons, hab, false_or]
      rw [mem_firstDedup a (rest.filter (· ≠ b))]
      simp [hab]
termination_by l => l.length
decreasing_by
  simp only [List.length_cons]
  exact Nat.lt_succ_of_le (List.length_filter_le _ _)

/-- `statistics.median`: middle element of the sorted list for odd length,
mean of the two middle elements for even length.  (Python raises on an empty
list; the detectors only call it on nonempty data, we return 0 there.) -/
def median (l : List ℚ) : ℚ :=
  let s := l.insertionSort (· ≤ ·)
  let n := l.length
  if n = 0 then 0
  else if n % 2 = 1 then s.getD (n / 2) 0
  else (s.getD (n / 2 - 1) 0 + s.getD (n / 2) 0) / 2

/-- Median absolute deviation around the median, as computed inline by
`detect_cost_anomalies`. -/
def madOf (l : List ℚ) : ℚ := median (l.map fun c => |c - median l|)

/-- `statistics.variance`: sample variance with denominator `n - 1`
(callers guard `len > 1`). -/
def sampleVariance (l : List ℚ) : ℚ :=
  let n : ℚ := l.length
  let mean := l.sum / n
  ((l.map fun x => (x - mean) ^ 2).sum) / (n - 1)

/-- Python `dict.get(k, 0)` over an association list with unique keys. -/
def lookupD (l : List (String × ℚ)) (k : String) : ℚ :=
  ((l.find? fun p => p.1 == k).map (·.2)).getD 0

/-- Python `max(list)` over a nonempty list (callers guard nonemptiness). -/
def maxList (l : List ℚ) : ℚ := (l.max?).getD 0

/-- `enumerate`-style map carrying the element index, used where a loop body
consumes per-iteration random draws. -/
def mapWithIndex (f : ℕ → α → β) : ℕ → List α → List β
  | _, [] => []
  | i, a :: l => f i a :: mapWithIndex f (i + 1) l

theorem length_mapWithIndex (f : ℕ → α → β) :
    ∀ (i : ℕ) (l : List α), (mapWithIndex f i l).length = l.length
  | _, [] => rfl
  | i, _ :: l => by simp [mapWithIndex, length_mapWithIndex f (i + 1) l]

/-! ## Data model (`server.py` Pydantic models, restricted to the fields the
analysis engine reads) -/

/-- A row of the `cost_daily` collection (`CostDaily` in `server.py`).
`date` is a UTC day index. -/
structure CostRow where
  product : String
  resource_id : Option String
  date : Int
  amount_usd : ℚ
deriving Repr, DecidableEq

/-- A row of the `util_hourly` collection (`UtilHourly`).  `ts_hour` is an
hour index. -/
structure UtilRow where
  resource_id : String
  metric : String
  ts_hour : Int
  p50 : ℚ
  p95 : ℚ
deriving Repr, DecidableEq

/-- A row of the `resources` collection (`Resource`). -/
structure Resource where
  resource_id : String
  rtype : String
  state : String
  name : String
  instance_type : Option String
deriving Repr, DecidableEq

inductive FindingType where
  | underutilized | orphan | anomaly | delta
deriving Repr, DecidableEq

inductive Severity where
  | low | medium | high | critical
deriving Repr, DecidableEq

inductive ConfidenceLevel where
  | low | medium | high | very_high
deriving Repr, DecidableEq

/-- A `Finding` (`server.py`), restricted to the analytically meaningful
fields; the presentational fields (title, evidence text, commands,
risk/implementation metadata, timestamps, ids) are not modelled.  For anomaly
findings `day` records the `anomaly_date` evidence entry. -/
structure Finding where
  ftype : FindingType
  resource_id : Option String
  product : Option String
  day : Option Int
  severity : Severity
  confidence : ConfidenceLevel
  monthly_savings_usd_est : ℚ
deriving Repr, DecidableEq

/-- The MongoDB store as seen by the engine: three read collections. -/
structure Store where
  cost_daily : List CostRow
  util_hourly : List UtilRow
  resources : List Resource
deriving Repr

/-! ## Aggregation helpers (models of the Mongo pipelines) -/

/-- `$group` by product with `$sum` of `amount_usd`, keys in first-appearance
order (the model of an unspecified Mongo group order feeding a Python dict). -/
def groupByProduct (rows : List CostRow) : List (String × ℚ) :=
  (firstDedup (rows.map (·.product))).map fun p =>
    (p, ((rows.filter fun r => r.product == p).map (·.amount_usd)).sum)

/-- `$group` by date with `$sum` of `amount_usd`, dates in first-appearance
order (no `$sort` yet). -/
def dailyGroups (rows : List CostRow) : List (Int × ℚ) :=
  (firstDedup (rows.map (·.date))).map fun d =>
    (d, ((rows.filter fun r => r.date == d).map (·.amount_usd)).sum)

/-- Daily totals sorted by date ascending (`$sort {_id: 1}`), as consumed by
`detect_cost_anomalies`. -/
def dailyTotals (rows : List CostRow) : List (Int × ℚ) :=
  (dailyGroups rows).insertionSort fun a b => a.1 ≤ b.1

/-- Descending order on the second (amount) component, used by the
`$sort {amount: -1}` stages. -/
def amountDesc (a b : α × ℚ) : Prop := b.2 ≤ a.2

instance : DecidableRel (amountDesc (α := α)) := fun a b =>
  inferInstanceAs (Decidable (b.2 ≤ a.2))

instance : IsTotal (α × ℚ) amountDesc := ⟨fun a b => le_total b.2 a.2⟩

instance : IsTrans (α × ℚ) amountDesc :=
  ⟨fun _ _ _ h1 h2 => le_trans h2 h1⟩

/-! ## Detector 1: `CostAnalyzer.find_underutilized_compute` -/

/-- The savings factor keyed on the instance-type substring, exactly as the
`if/elif/else` chain in `find_underutilized_compute` orders its tests:
`"large" in instance_type` is tested before `"xlarge" in instance_type`. -/
def savings_factor (instance_type : String) : ℚ :=
  if strContains instance_type "large" then 3/10
  else if strContains instance_type "xlarge" then 4/10
  else 1/4

/-- The cpu samples `find_underutilized_compute` queries for one resource:
metric `"cpu"` over the trailing 7 days (168 hours). -/
def cpuMetrics (st : Store) (now : Int) (rid : String) : List UtilRow :=
  st.util_hourly.filter fun u =>
    u.resource_id == rid && u.metric == "cpu" && now - 168 ≤ u.ts_hour

/-- The trailing-30-day cost rows attributed to one resource. -/
def resourceCost30d (st : Store) (today : Int) (rid : String) : ℚ :=
  ((st.cost_daily.filter fun c =>
    c.resource_id == some rid && today - 30 ≤ c.date).map (·.amount_usd)).sum

/-- Decision of `find_underutilized_compute` for a single running compute
resource (the loop body). -/
def underutilFinding (st : Store) (now today : Int) (res : Resource) :
    Option Finding :=
  let cpu := cpuMetrics st now res.resource_id
  if cpu.length < 48 then none
  else
    let p50s := cpu.map (·.p50)
    let p95s := cpu.map (·.p95)
    let median_p50 := median p50s
    let median_p95 := median p95s
    let cpu_variance := if 1 < p50s.length then sampleVariance p50s else 0
    let confidence : ConfidenceLevel :=
      if cpu.length < 72 then .low
      else if 100 < cpu_variance ∨ cpu.length < 120 then .medium
      else .high
    if median_p50 < 15 ∧ median_p95 < 30 then
      let monthly_cost := resourceCost30d st today res.resource_id
      let factor := savings_factor (res.instance_type.getD "unknown")
      let estimated_savings := monthly_cost * factor
      some { ftype := .underutilized, resource_id := some res.resource_id,
             product := none, day := none,
             severity := if 200 < estimated_savings then .high else .medium,
             confidence := confidence,
             monthly_savings_usd_est := round2 estimated_savings }
    else none

/-- `CostAnalyzer.find_underutilized_compute`. -/
def find_underutilized_compute (st : Store) (now today : Int) : List Finding :=
  (st.resources.filter fun r =>
    (r.rtype == "ec2" || r.rtype == "gce") && r.state == "running").filterMap
    (underutilFinding st now today)

/-! ## Detector 2: `CostAnalyzer.find_orphaned_resources`

The loop bodies call `random.randint`: `volume_size_gb = randint(50, 500)`
and `days_unattached = randint(15, 180)` per volume.  The draws are modelled
as explicit functions from the loop index, so that the two sources of
nondeterminism are visible parameters of the detector. -/

/-- Finding for one unattached EBS volume, given that iteration's random
draws (`volume_size_gb`, `days_unattached`). -/
def orphanVolumeFinding (v : Resource) (sizeGb daysUnattached : ℕ) : Finding :=
  let monthly_cost : ℚ := sizeGb * (1/10)
  { ftype := .orphan, resource_id := some v.resource_id,
    product := none, day := none,
    severity := if 20 < monthly_cost then .medium else .low,
    confidence := if 30 < daysUnattached then .high else .medium,
    monthly_savings_usd_est := round2 monthly_cost }

/-- Finding for one unused Elastic IP: fixed `monthly_cost = 43.80`; the
random draws in this loop only affect presentational evidence fields. -/
def orphanEipFinding (e : Resource) : Finding :=
  { ftype := .orphan, resource_id := some e.resource_id,
    product := none, day := none,
    severity := .low, confidence := .high,
    monthly_savings_usd_est := round2 (438/10) }

/-- `CostAnalyzer.find_orphaned_resources`, with the per-volume random draws
passed in as functions of the loop index. -/
def find_orphaned_resources (st : Store) (volSize volDays : ℕ → ℕ) :
    List Finding :=
  let vols := st.resources.filter fun r =>
    r.rtype == "ebs" && r.state == "available"
  let eips := st.resources.filter fun r =>
    r.rtype == "eip" && r.state == "available"
  mapWithIndex (fun i v => orphanVolumeFinding v (volSize i) (volDays i)) 0 vols
    ++ eips.map orphanEipFinding

/-! ## Detector 3: `CostAnalyzer.find_idle_load_balancers` -/

/-- The `elb_req` samples queried for one load balancer over the trailing
7 days. -/
def elbReqMetrics (st : Store) (now : Int) (rid : String) : List UtilRow :=
  st.util_hourly.filter fun u =>
    u.resource_id == rid && u.metric == "elb_req" && now - 168 ≤ u.ts_hour

/-- Decision of `find_idle_load_balancers` for a single active ELB (the loop
body).  Note the strict sample-count guard `len(req_metrics) > 48` and the
fixed savings `22.50 + 8.50 = 31.0`. -/
def idleLbFinding (st : Store) (now : Int) (elb : Resource) : Option Finding :=
  let reqs := elbReqMetrics st now elb.resource_id
  if 48 < reqs.length then
    let p50_requests := reqs.map (·.p50)
    let median_requests := median p50_requests
    let max_requests := maxList p50_requests
    if median_requests < 1 then
      some { ftype := .underutilized, resource_id := some elb.resource_id,
             product := none, day := none,
             severity := .medium,
             confidence := if max_requests < 2 then .high else .medium,
             monthly_savings_usd_est := round2 (45/2 + 17/2) }
    else none
  else none

/-- `CostAnalyzer.find_idle_load_balancers`. -/
def find_idle_load_balancers (st : Store) (now : Int) : List Finding :=
  (st.resources.filter fun r =>
    r.rtype == "elb" && r.state == "active").filterMap (idleLbFinding st now)

/-! ## Detector 4: `CostAnalyzer.detect_cost_anomalies` -/

/-- Body of `for i, recent_cost in enumerate(recent_costs)` for one recent
day: the `mad > 0` guard, the robust z-score, the flag thresholds and the
finding fields.  `n` is `len(daily_costs)` and `dates` its date column, used
for the `daily_costs[-(3-i)]` anomaly date. -/
def anomalyDayFinding (product : String) (dates : List Int) (n : ℕ)
    (median_cost mad : ℚ) (i : ℕ) (recent_cost : ℚ) : Option Finding :=
  if 0 < mad then
    let z_score := 6745/10000 * (recent_cost - median_cost) / mad
    let delta_usd := recent_cost - median_cost
    if 5/2 ≤ |z_score| ∧ 25 ≤ |delta_usd| then
      some { ftype := .anomaly, resource_id := none,
             product := some product,
             day := some (dates.getD (n - (3 - i)) 0),
             severity := if 200 ≤ |delta_usd| then .critical else .high,
             confidence := if 3 ≤ |z_score| then .high else .medium,
             monthly_savings_usd_est :=
               if 0 < delta_usd then |delta_usd * 30| else 0 }
    else none
  else none

/-- The enumerated loop over the recent window. -/
def anomalyScan (product : String) (dates : List Int) (n : ℕ)
    (median_cost mad : ℚ) : ℕ → List ℚ → List Finding
  | _, [] => []
  | i, c :: rest =>
    (anomalyDayFinding product dates n median_cost mad i c).toList
      ++ anomalyScan product dates n median_cost mad (i + 1) rest

/-- `detect_cost_anomalies` restricted to one product, applied to that
product's `daily_costs` aggregation (date-ascending `(day, total)` pairs):
the `< 14` days guard, the `>= 7` guard, the baseline/recent split at the
last 3 days, and the scan of the recent window. -/
def detect_anomalies_for_product (daily_costs : List (Int × ℚ))
    (product : String) : List Finding :=
  if daily_costs.length < 14 then []
  else
    let costs := daily_costs.map (·.2)
    if 7 ≤ costs.length then
      let recent_costs := costs.drop (costs.length - 3)
      let baseline_costs := costs.take (costs.length - 3)
      let median_cost := median baseline_costs
      let mad := madOf baseline_costs
      anomalyScan product (daily_costs.map (·.1)) daily_costs.length
        median_cost mad 0 recent_costs
    else []

/-- `CostAnalyzer.detect_cost_anomalies`: distinct products of the trailing
30 days, each analysed on its own date-ascending daily totals. -/
def detect_cost_anomalies (st : Store) (today : Int) : List Finding :=
  let rows := st.cost_daily.filter fun r => today - 30 ≤ r.date
  (firstDedup (rows.map (·.product))).flatMap fun p =>
    detect_anomalies_for_product (dailyTotals (rows.filter fun r => r.product == p)) p

/-! ## Orchestration (`get_summary` in `server.py`, `run_analysis` in
`cli.py`) -/

/-- The detector sequence run by `get_summary` / `CostGuardCLI.run_analysis`,
concatenated in program order.  `volSize`/`volDays` are the orphan
detector's random draws. -/
def run_all_detectors (st : Store) (now today : Int) (volSize volDays : ℕ → ℕ) :
    List Finding :=
  find_underutilized_compute st now today
    ++ find_orphaned_resources st volSize volDays
    ++ find_idle_load_balancers st now
    ++ detect_cost_anomalies st today

/-- The `savings_ready_usd` KPI: `round(sum(f.monthly_savings_usd_est), 2)`. -/
def savings_ready_usd (findings : List Finding) : ℚ :=
  round2 ((findings.map (·.monthly_savings_usd_est)).sum)

/-- The finding-persistence step of `get_summary`:

    if findings:
        await db.findings.delete_many({})
        await db.findings.insert_many(...)

given the previously persisted findings and the findings of this run,
returns the persisted collection afterwards. -/
def persist_findings (oldFindings newFindings : List Finding) : List Finding :=
  if newFindings.isEmpty then oldFindings else newFindings

/-- The orchestrator's sequential `findings.extend(await detector())` chain
with fallible store calls: each detector either returns its findings or
raises (`Except.error`); an exception propagates out of `get_summary` /
`run_analysis`, which have no handler. -/
def run_analysis (d1 d2 d3 d4 : Except String (List Finding)) :
    Except String (List Finding) := do
  let f1 ← d1
  let f2 ← d2
  let f3 ← d3
  let f4 ← d4
  pure (f1 ++ f2 ++ f3 ++ f4)

/-! ## Top movers (`get_top_movers` in `server.py`, `calc_movers` in
`app.py`) -/

/-- One entry of a movers response. -/
structure Mover where
  service : String
  change_amount : ℚ
  change_percent : ℚ
  current_cost : ℚ
  previous_cost : ℚ
deriving Repr, DecidableEq

/-- Descending order on the absolute dollar change, the movers sort key
(`key=lambda x: abs(x["change_amount"]), reverse=True`). -/
def moverDesc (a b : Mover) : Prop := |b.change_amount| ≤ |a.change_amount|

instance : DecidableRel moverDesc := fun a b =>
  inferInstanceAs (Decidable (|b.change_amount| ≤ |a.change_amount|))

instance : IsTotal Mover moverDesc := ⟨fun _ _ => le_total _ _⟩

instance : IsTrans Mover moverDesc := ⟨fun _ _ _ h1 h2 => le_trans h2 h1⟩

/-- The current-window per-product totals read by `get_top_movers`
(`date >= current_start` and `date < current_end`). -/
def currentCosts (st : Store) (today : Int) (days : Int) : List (String × ℚ) :=
  groupByProduct (st.cost_daily.filter fun r =>
    today - days ≤ r.date && r.date < today)

/-- The previous-window per-product totals read by `get_top_movers`. -/
def previousCosts (st : Store) (today : Int) (days : Int) : List (String × ℚ) :=
  groupByProduct (st.cost_daily.filter fun r =>
    today - 2 * days ≤ r.date && r.date < today - days)

/-- `get_top_movers` (`server.py`): iterates the current period's services
only, and only keeps a service when `previous_cost > 0`; sorts by absolute
change descending and truncates to 10. -/
def get_top_movers (st : Store) (today : Int) (days : Int) : List Mover :=
  let current_dict := currentCosts st today days
  let previous_dict := previousCosts st today days
  let movers := current_dict.filterMap fun sc =>
    let current_cost := sc.2
    let previous_cost := lookupD previous_dict sc.1
    if 0 < previous_cost then
      let change_amount := current_cost - previous_cost
      some { service := sc.1,
             change_amount := round2 change_amount,
             change_percent := round1 (change_amount / previous_cost * 100),
             current_cost := round2 current_cost,
             previous_cost := round2 previous_cost }
    else none
  (movers.insertionSort moverDesc).take 10

/-- `calc_movers` (`app.py`): iterates the union of service names, treats a
missing side as 0, reports `+100%` for new spend, and sorts by absolute
dollar change descending. -/
def calc_movers (by_service_now by_service_prev : List (String × ℚ)) :
    List Mover :=
  let names := firstDedup
    (by_service_prev.map (·.1) ++ by_service_now.map (·.1))
  let movers := names.map fun n =>
    let prev := lookupD by_service_prev n
    let curr := lookupD by_service_now n
    let delta := round2 (curr - prev)
    { service := n,
      previous_cost := round2 prev,
      current_cost := round2 curr,
      change_amount := delta,
      change_percent := round1
        (if 0 < prev then delta / prev * 100
         else if 0 < curr then 100 else 0) }
  movers.insertionSort moverDesc

/-! ## Service breakdown (`get_service_breakdown` in `server.py`) -/

structure BreakdownEntry where
  name : String
  value : ℚ
  percentage : ℚ
deriving Repr, DecidableEq

structure Breakdown where
  data : List BreakdownEntry
  total : ℚ
deriving Repr, DecidableEq

/-- The `$group`-by-product / `$sort {amount: -1}` / `$limit 8` pipeline of
`get_service_breakdown`. -/
def topServiceEntries (st : Store) (today : Int) (days : Int) :
    List (String × ℚ) :=
  ((groupByProduct (st.cost_daily.filter fun r =>
    today - days ≤ r.date)).insertionSort amountDesc).take 8

/-- `get_service_breakdown`: the total is the sum over the (at most 8)
returned services only, and each percentage is relative to that sum. -/
def get_service_breakdown (st : Store) (today : Int) (days : Int) :
    Breakdown :=
  let results := topServiceEntries st today days
  let total := (results.map (·.2)).sum
  { data := results.map fun r =>
      { name := r.1, value := round2 r.2,
        percentage := round1 (r.2 / total * 100) },
    total := round2 total }

/-! ## Key insights (`get_key_insights` in `server.py`) -/

structure KeyInsights where
  highest_day_date : Int
  highest_day_amount : ℚ
  projected_month_end : ℚ
  monthly_budget : ℚ
  mtd_actual : ℚ
  budget_variance : ℚ
  avg_daily_spend : ℚ
deriving Repr, DecidableEq

/-- The `$group`-by-date / `$sort {daily_total: -1}` pipeline of
`get_key_insights`: note the sort is by descending daily total, not by
date, so the tail of the list holds the cheapest days. -/
def dailyByCostDesc (rows : List CostRow) : List (Int × ℚ) :=
  (dailyGroups rows).insertionSort amountDesc

/-- `get_key_insights`: highest day from the head of the cost-descending
list, `daily_avg_recent` from its last 7 entries (`daily_results[-7:]`),
projection `mtd + daily_avg_recent * (30 - day_of_month)`, budget 180000
(50000 with zeroes in the no-data branch). -/
def get_key_insights (st : Store) (today : Int) (days : Int)
    (day_of_month : ℕ) : KeyInsights :=
  let daily_results := dailyByCostDesc
    (st.cost_daily.filter fun r => today - days ≤ r.date)
  if daily_results.isEmpty then
    { highest_day_date := 0, highest_day_amount := 0,
      projected_month_end := 0, monthly_budget := 50000, mtd_actual := 0,
      budget_variance := 0, avg_daily_spend := 0 }
  else
    let highest_day := daily_results.headD (0, 0)
    let total_spend := (daily_results.map (·.2)).sum
    let avg_daily := total_spend / daily_results.length
    let mtd_actual := total_spend
    let daily_avg_recent :=
      if 7 ≤ daily_results.length then
        ((daily_results.drop (daily_results.length - 7)).map (·.2)).sum / 7
      else avg_daily
    let projected_month_end :=
      mtd_actual + daily_avg_recent * (30 - (day_of_month : ℚ))
    { highest_day_date := highest_day.1,
      highest_day_amount := round2 highest_day.2,
      projected_month_end := round2 projected_month_end,
      monthly_budget := 180000,
      mtd_actual := round2 mtd_actual,
      budget_variance := round2 (projected_month_end - 180000),
      avg_daily_spend := round2 avg_daily }

/-! ## Claim C2 — the under-utilization savings factor

The claim (and the spec) say the factor is 0.4 for instance types containing
"xlarge", noting that the "xlarge" rule takes precedence.  The code tests
`"large" in instance_type` first; every string containing "xlarge" also
contains "large", so the `elif "xlarge"` branch is unreachable and every
xlarge type gets factor 0.3 — contradicting the code's own inline comment
"40% savings potential". -/

/-- C2: evaluating the savings-factor chain of `find_underutilized_compute`:
every instance type containing "xlarge" receives factor 0.3, not the claimed
0.4; the 0.4 branch is dead code. -/
theorem c2_xlarge_gets_factor_030 :
    savings_factor "m5.xlarge" = 3/10 ∧
    savings_factor "m5.2xlarge" = 3/10 ∧
    savings_factor "m5.4xlarge" = 3/10 ∧
    savings_factor "r5.xlarge" = 3/10 ∧
    savings_factor "m5.large" = 3/10 ∧
    savings_factor "t3.micro" = 1/4 ∧
    (3/10 : ℚ) ≠ 4/10 := by
  have h1 : strContains "m5.xlarge" "large" = true := rfl
  have h2 : strContains "m5.2xlarge" "large" = true := rfl
  have h3 : strContains "m5.4xlarge" "large" = true := rfl
  have h4 : strContains "r5.xlarge" "large" = true := rfl
  have h5 : strContains "m5.large" "large" = true := rfl
  have h6 : strContains "t3.micro" "large" = false := rfl
  have h7 : strContains "t3.micro" "xlarge" = false := rfl
  refine ⟨?_, ?_, ?_, ?_, ?_, ?_, by norm_num⟩ <;>
    norm_num [savings_factor, h1, h2, h3, h4, h5, h6, h7]

/-! ## Claim C4 — finding persistence -/

/-- A previously persisted finding, used to exhibit the stale-finding case. -/
def c4StaleFinding : Finding :=
  { ftype := .orphan, resource_id := some "vol-0stale", product := none,
    day := none, severity := .low, confidence := .high,
    monthly_savings_usd_est := 5 }

/-- A finding produced by a fresh run. -/
def c4FreshFinding : Finding :=
  { ftype := .underutilized, resource_id := some "i-0fresh", product := none,
    day := none, severity := .medium, confidence := .high,
    monthly_savings_usd_est := 120 }

/-- C4 counterexample: a run whose detectors produce zero findings does not
clear the previous findings — the `if findings:` guard skips both the
`delete_many` and the `insert_many`, so the stale finding set survives and
differs from the run's (empty) finding set. -/
theorem c4_empty_run_keeps_stale_findings :
    persist_findings [c4StaleFinding] [] = [c4StaleFinding] ∧
    [c4StaleFinding] ≠ ([] : List Finding) := by
  constructor
  · rfl
  · simp

/-- C4 amended: whenever a run produces at least one finding, the persisted
set is fully replaced by exactly that run's findings. -/
theorem c4_nonempty_run_replaces (oldF newF : List Finding) (h : newF ≠ []) :
    persist_findings oldF newF = newF := by
  simp [persist_findings, h]

/-- C4 witness: replacing one stale finding by one fresh finding. -/
theorem c4_nonempty_run_replaces_witness :
    persist_findings [c4StaleFinding] [c4FreshFinding] = [c4FreshFinding] :=
  c4_nonempty_run_replaces [c4StaleFinding] [c4FreshFinding] (by simp)

/-! ## Claim C5 — detector failure isolation -/

/-- A finding computed by the first detector before another detector fails. -/
def c5ComputedFinding : Finding :=
  { ftype := .underutilized, resource_id := some "i-0computed",
    product := none, day := none, severity := .high, confidence := .high,
    monthly_savings_usd_est := 300 }

/-- C5 counterexample: the first detector succeeds and produces a finding,
the second detector's store query raises; the orchestrator returns the
error — the already-computed finding is discarded, not returned. -/
theorem c5_failure_discards_computed_findings :
    run_analysis (Except.ok [c5ComputedFinding])
      (Except.error "store unavailable") (Except.ok []) (Except.ok [])
      = Except.error "store unavailable" := rfl

/-- C5 amended: the orchestrator has no per-detector isolation: it returns
all four detectors' findings only when every detector succeeds, and returns
the (first) failure — with no findings at all — as soon as any detector
raises. -/
theorem c5_no_partial_failure_tolerance :
    (∀ f1 f2 f3 f4 : List Finding,
      run_analysis (Except.ok f1) (Except.ok f2) (Except.ok f3)
        (Except.ok f4) = Except.ok (f1 ++ f2 ++ f3 ++ f4)) ∧
    (∀ (e : String) (f1 : List Finding)
        (d3 d4 : Except String (List Finding)),
      run_analysis (Except.ok f1) (Except.error e) d3 d4 = Except.error e) ∧
    (∀ (e : String) (d2 d3 d4 : Except String (List Finding)),
      run_analysis (Except.error e) d2 d3 d4 = Except.error e) ∧
    (∀ (e : String) (f1 f2 f3 : List Finding),
      run_analysis (Except.ok f1) (Except.ok f2) (Except.ok f3)
        (Except.error e) = Except.error e) :=
  ⟨fun _ _ _ _ => rfl, fun _ _ _ _ => rfl, fun _ _ _ _ => rfl,
   fun _ _ _ _ => rfl⟩

/-- C5 witness: the all-success case and a failure case at concrete
arguments. -/
theorem c5_no_partial_failure_tolerance_witness :
    run_analysis (Except.ok [c5ComputedFinding]) (Except.ok [])
      (Except.ok []) (Except.ok []) = Except.ok [c5ComputedFinding] := by
  have h := c5_no_partial_failure_tolerance.1 [c5ComputedFinding] [] [] []
  simpa using h

/-! ## Claim C1 — determinism of the full analysis

`find_orphaned_resources` sets each volume finding's savings to
`volume_size_gb * 0.10` with `volume_size_gb = random.randint(50, 500)`, so
two runs against an unchanged store can legally return different
`savings_ready_usd` totals.  The finding count, however, never depends on
the draws. -/

/-- A store holding exactly one unattached EBS volume (and nothing else),
on which two legal draws of `randint(50, 500)` give different savings. -/
def c1VolStore : Store :=
  { cost_daily := [], util_hourly := [],
    resources := [{ resource_id := "vol-0123456789abcdef0", rtype := "ebs",
                    state := "available", name := "backup-volume-prod",
                    instance_type := none }] }

/-- C1 counterexample: two runs of the full detector pipeline against the
same unchanged store, differing only in the volume-size draws (50 GB vs
500 GB, both inside `randint(50, 500)`'s range), produce the same finding
count but different `savings_ready_usd` (5.0 vs 50.0 USD). -/
theorem c1_savings_depend_on_random_draws :
    (run_all_detectors c1VolStore 0 0 (fun _ => 50) (fun _ => 40)).length =
      (run_all_detectors c1VolStore 0 0 (fun _ => 500) (fun _ => 40)).length ∧
    savings_ready_usd
      (run_all_detectors c1VolStore 0 0 (fun _ => 50) (fun _ => 40)) = 5 ∧
    savings_ready_usd
      (run_all_detectors c1VolStore 0 0 (fun _ => 500) (fun _ => 40)) = 50 ∧
    (5 : ℚ) ≠ 50 := by
  have h50 : (⌊(50 : ℚ) * (1/10) * 100 + 1/2⌋ : ℤ) = 500 := by
    norm_num [Int.floor_eq_iff]
  have h500 : (⌊(500 : ℚ) * (1/10) * 100 + 1/2⌋ : ℤ) = 5000 := by
    norm_num [Int.floor_eq_iff]
  have hu : find_underutilized_compute c1VolStore 0 0 = [] := rfl
  have hl : find_idle_load_balancers c1VolStore 0 = [] := rfl
  have ha : detect_cost_anomalies c1VolStore 0 = [] := by
    simp [detect_cost_anomalies, c1VolStore, firstDedup]
  have heip : (List.filter
      (fun r : Resource => r.rtype == "eip" && r.state == "available")
      ([{ resource_id := "vol-0123456789abcdef0", rtype := "ebs",
          state := "available", name := "backup-volume-prod",
          instance_type := none }] : List Resource)) = [] := rfl
  have hvol : (c1VolStore.resources.filter fun r =>
      r.rtype == "ebs" && r.state == "available") = c1VolStore.resources := rfl
  have hres : c1VolStore.resources =
      [{ resource_id := "vol-0123456789abcdef0", rtype := "ebs",
         state := "available", name := "backup-volume-prod",
         instance_type := none }] := rfl
  refine ⟨?_, ?_, ?_, by norm_num⟩ <;>
    norm_num [run_all_detectors, find_orphaned_resources, hu, hl, ha, heip,
      hvol, hres, mapWithIndex, orphanVolumeFinding,
      savings_ready_usd, round2, h50, h500, Int.floor_eq_iff]

/-- C1 amended: for a fixed store the finding count is a deterministic
function of the inputs, and so is `savings_ready_usd` whenever the store
holds no unattached EBS volume (the only findings whose savings read the
random draws). -/
theorem c1_count_deterministic (st : Store) (now today : Int)
    (v1 d1 v2 d2 : ℕ → ℕ) :
    (run_all_detectors st now today v1 d1).length =
      (run_all_detectors st now today v2 d2).length ∧
    ((st.resources.filter fun r => r.rtype == "ebs" && r.state == "available")
        = [] →
      savings_ready_usd (run_all_detectors st now today v1 d1) =
        savings_ready_usd (run_all_detectors st now today v2 d2)) := by
  constructor
  · simp [run_all_detectors, find_orphaned_resources, length_mapWithIndex]
  · intro h
    simp [run_all_detectors, find_orphaned_resources, h, mapWithIndex]

/-- A store holding one unused Elastic IP and no EBS volume: every finding's
savings is draw-independent there. -/
def c1EipStore : Store :=
  { cost_daily := [], util_hourly := [],
    resources := [{ resource_id := "eipalloc-0a1b2c3d4e5f6", rtype := "eip",
                    state := "available", name := "legacy-elastic-ip",
                    instance_type := none }] }

/-- C1 witness: on the EBS-free store the savings total agrees across two
different draw assignments. -/
theorem c1_count_deterministic_witness :
    (c1EipStore.resources.filter fun r =>
      r.rtype == "ebs" && r.state == "available") = [] ∧
    savings_ready_usd
        (run_all_detectors c1EipStore 0 0 (fun _ => 50) (fun _ => 40)) =
      savings_ready_usd
        (run_all_detectors c1EipStore 0 0 (fun _ => 500) (fun _ => 180)) :=
  ⟨rfl, (c1_count_deterministic c1EipStore 0 0 (fun _ => 50) (fun _ => 40)
    (fun _ => 500) (fun _ => 180)).2 rfl⟩

/-! ## Claim C7 — zero MAD suppresses anomaly findings -/

/-- With non-positive MAD the per-day guard `if mad > 0` rejects every
recent day, so the scan emits nothing (and the z-score division is never
reached). -/
theorem anomalyScan_eq_nil_of_mad_nonpos (p : String) (dates : List Int)
    (n : ℕ) (med mad : ℚ) (h : ¬ 0 < mad) :
    ∀ (i : ℕ) (l : List ℚ), anomalyScan p dates n med mad i l = []
  | _, [] => rfl
  | i, c :: rest => by
    simp [anomalyScan, anomalyDayFinding, h,
      anomalyScan_eq_nil_of_mad_nonpos p dates n med mad h (i + 1) rest]

/-- C7: whenever the baseline series (all but the last 3 days) has median
absolute deviation 0, the cost-anomaly detector emits no finding for that
product, however far the recent days sit from the baseline median; the
`mad > 0` guard also means the z-score quotient is never formed. -/
theorem c7_zero_mad_emits_no_finding (daily_costs : List (Int × ℚ))
    (product : String)
    (h : madOf ((daily_costs.map (·.2)).take (daily_costs.length - 3)) = 0) :
    detect_anomalies_for_product daily_costs product = [] := by
  by_cases h14 : daily_costs.length < 14
  · simp [detect_anomalies_for_product, h14]
  · have h7 : 7 ≤ (daily_costs.map (·.2)).length := by
      simp only [List.length_map]; omega
    simp only [detect_anomalies_for_product, if_neg h14, if_pos h7,
      List.length_map]
    rw [if_pos (show 7 ≤ daily_costs.length by omega)]
    apply anomalyScan_eq_nil_of_mad_nonpos
    rw [h]
    exact lt_irrefl 0

/-- A 14-day series with a perfectly flat baseline ($100/day) and a final
day of $500: `mad = 0`. -/
def c7FlatSeries : List (Int × ℚ) :=
  [(1, 100), (2, 100), (3, 100), (4, 100), (5, 100), (6, 100), (7, 100),
   (8, 100), (9, 100), (10, 100), (11, 100), (12, 100), (13, 100),
   (14, 500)]

/-- C7 witness: the flat-baseline series has zero MAD and produces no
finding despite the $400 spike on the last day. -/
theorem c7_zero_mad_emits_no_finding_witness :
    madOf ((c7FlatSeries.map (·.2)).take (c7FlatSeries.length - 3)) = 0 ∧
    detect_anomalies_for_product c7FlatSeries "RDS" = [] := by
  have hm : madOf ((c7FlatSeries.map (·.2)).take (c7FlatSeries.length - 3))
      = 0 := by
    norm_num [c7FlatSeries, madOf, median]
  exact ⟨hm, c7_zero_mad_emits_no_finding c7FlatSeries "RDS" hm⟩

/-! ## Claim C8 — idle-load-balancer thresholds

The code requires strictly more than 48 samples (`len(req_metrics) > 48`),
so with exactly 48 samples nothing is flagged even at a median rate far
below 1/sec; with more than 48 samples the median threshold behaves exactly
as claimed. -/

/-- An active load balancer resource. -/
def c8Elb : Resource :=
  { resource_id := "elbv2-legacy-web-lb", rtype := "elb", state := "active",
    name := "legacy-web-balancer", instance_type := none }

/-- A store with exactly 48 in-window `elb_req` samples at 0.5 req/s. -/
def c8Store48 : Store :=
  { cost_daily := [],
    util_hourly := (List.range 48).map fun i =>
      { resource_id := "elbv2-legacy-web-lb", metric := "elb_req",
        ts_hour := (i : Int) + 1, p50 := 1/2, p95 := 1 },
    resources := [c8Elb] }

/-- A store with 49 in-window `elb_req` samples at 0.5 req/s. -/
def c8Store49 : Store :=
  { cost_daily := [],
    util_hourly := (List.range 49).map fun i =>
      { resource_id := "elbv2-legacy-web-lb", metric := "elb_req",
        ts_hour := (i : Int) + 1, p50 := 1/2, p95 := 1 },
    resources := [c8Elb] }

/-- C8 counterexample: an active ELB with exactly 48 trailing-7-day samples
and median rate 0.5 < 1.0 req/s is not flagged, because the code demands
strictly more than 48 samples while the claim reads "at least 48". -/
theorem c8_exactly_48_samples_not_flagged :
    (elbReqMetrics c8Store48 100 "elbv2-legacy-web-lb").length = 48 ∧
    median ((elbReqMetrics c8Store48 100 "elbv2-legacy-web-lb").map (·.p50))
      = 1/2 ∧
    (1/2 : ℚ) < 1 ∧
    find_idle_load_balancers c8Store48 100 = [] := by
  have hreq : elbReqMetrics c8Store48 100 "elbv2-legacy-web-lb"
      = c8Store48.util_hourly := rfl
  have hmap : (c8Store48.util_hourly.map (·.p50))
      = List.replicate 48 (1/2 : ℚ) := rfl
  refine ⟨rfl, ?_, by norm_num, rfl⟩
  rw [hreq, hmap]
  norm_num [median, List.replicate]

/-- C8 amended: for an active ELB with **more than 48** trailing-7-day
`elb_req` samples, the detector emits a finding exactly when the median p50
request rate is strictly below 1.0 req/s (with the fixed $31.00 savings
estimate), and the emitted finding reaches the detector's output list. -/
theorem c8_idle_lb_rule (st : Store) (now : Int) (elb : Resource)
    (h48 : 48 < (elbReqMetrics st now elb.resource_id).length) :
    (median ((elbReqMetrics st now elb.resource_id).map (·.p50)) < 1 →
      idleLbFinding st now elb = some
        { ftype := .underutilized, resource_id := some elb.resource_id,
          product := none, day := none, severity := .medium,
          confidence :=
            if maxList ((elbReqMetrics st now elb.resource_id).map (·.p50))
                < 2 then .high else .medium,
          monthly_savings_usd_est := 31 }) ∧
    (1 ≤ median ((elbReqMetrics st now elb.resource_id).map (·.p50)) →
      idleLbFinding st now elb = none) ∧
    (∀ f, idleLbFinding st now elb = some f → elb ∈ st.resources →
      elb.rtype = "elb" → elb.state = "active" →
      f ∈ find_idle_load_balancers st now) := by
  have hsav : round2 (45/2 + 17/2) = 31 := by
    norm_num [round2, Int.floor_eq_iff]
  refine ⟨fun hmed => ?_, fun hmed => ?_, fun f hf hm ht hs => ?_⟩
  · simp only [idleLbFinding, if_pos h48, if_pos hmed, hsav]
  · simp only [idleLbFinding, if_pos h48, if_neg (not_lt.mpr hmed)]
  · exact List.mem_filterMap.mpr
      ⟨elb, List.mem_filter.mpr ⟨hm, by simp [ht, hs]⟩, hf⟩

/-- C8 witness: with 49 samples at 0.5 req/s the load balancer is flagged
with the fixed $31.00 estimate. -/
theorem c8_idle_lb_rule_witness :
    48 < (elbReqMetrics c8Store49 100 "elbv2-legacy-web-lb").length ∧
    median ((elbReqMetrics c8Store49 100 "elbv2-legacy-web-lb").map (·.p50))
      < 1 ∧
    idleLbFinding c8Store49 100 c8Elb = some
      { ftype := .underutilized, resource_id := some "elbv2-legacy-web-lb",
        product := none, day := none, severity := .medium,
        confidence :=
          if maxList ((elbReqMetrics c8Store49 100
              "elbv2-legacy-web-lb").map (·.p50)) < 2 then .high
          else .medium,
        monthly_savings_usd_est := 31 } := by
  have h48 : 48 < (elbReqMetrics c8Store49 100 "elbv2-legacy-web-lb").length := by
    have : (elbReqMetrics c8Store49 100 "elbv2-legacy-web-lb").length = 49 := rfl
    omega
  have hmap : ((elbReqMetrics c8Store49 100 "elbv2-legacy-web-lb").map (·.p50))
      = List.replicate 49 (1/2 : ℚ) := rfl
  have hmed : median ((elbReqMetrics c8Store49 100
      "elbv2-legacy-web-lb").map (·.p50)) < 1 := by
    rw [hmap]
    norm_num [median, List.replicate]
  exact ⟨h48, hmed, (c8_idle_lb_rule c8Store49 100 c8Elb h48).1 hmed⟩

/-! ## Claim C3 — top movers for new spend

`app.py`'s `calc_movers` implements the claimed rule (`+100%` for a service
with no previous-window cost, ranked by absolute dollar change).
`server.py`'s `get_top_movers` iterates only the current period's services
and keeps one only `if previous_cost > 0:`, so a service that is new in the
current window is silently dropped from the endpoint's output. -/

/-- A store whose only cost row is new spend inside the current 7-day
window (date 95 with `today = 100`): previous-window cost is 0. -/
def c3NewSpendStore : Store :=
  { cost_daily := [{ product := "Lambda", resource_id := none, date := 95,
                     amount_usd := 50 }],
    util_hourly := [], resources := [] }

/-- C3 counterexample: `get_top_movers` returns an empty movers list for a
service with zero previous-window cost and positive current-window cost,
instead of including it with `change_percent = 100.0`. -/
theorem c3_server_top_movers_drop_new_service :
    lookupD (currentCosts c3NewSpendStore 100 7) "Lambda" = 50 ∧
    lookupD (previousCosts c3NewSpendStore 100 7) "Lambda" = 0 ∧
    get_top_movers c3NewSpendStore 100 7 = [] := by
  have hcur : currentCosts c3NewSpendStore 100 7 = [("Lambda", 50)] := by
    norm_num [currentCosts, groupByProduct, c3NewSpendStore, firstDedup]
  have hprev : previousCosts c3NewSpendStore 100 7 = [] := by
    norm_num [previousCosts, groupByProduct, c3NewSpendStore, firstDedup]
  refine ⟨by rw [hcur]; rfl, by rw [hprev]; rfl, ?_⟩
  rw [get_top_movers, hcur, hprev]
  rfl

/-- `round(100.0, 1) = 100.0`. -/
theorem round1_hundred : round1 100 = 100 := by
  norm_num [round1, Int.floor_eq_iff]

/-- C3 amended (and the behaviour of `calc_movers` as cited): a service with
zero previous-window cost and positive current-window cost appears in
`calc_movers`' output with `change_percent = 100.0` and change amount equal
to its (rounded) current cost, and the output is sorted by absolute dollar
change descending — so the new service is ranked above every entry with a
strictly smaller absolute change. -/
theorem c3_calc_movers_new_service_full_mover
    (nowL prevL : List (String × ℚ)) (s : String)
    (hprev : lookupD prevL s = 0) (hcurr : 0 < lookupD nowL s) :
    (∃ m ∈ calc_movers nowL prevL, m.service = s ∧
      m.change_percent = 100 ∧
      m.change_amount = round2 (lookupD nowL s)) ∧
    (calc_movers nowL prevL).Pairwise moverDesc := by
  have hkey : s ∈ nowL.map (·.1) := by
    by_contra hns
    have hnone : (nowL.find? fun p => p.1 == s) = none := by
      apply List.find?_eq_none.mpr
      intro p hp hb
      exact hns (List.mem_map.mpr ⟨p, hp, by simpa using hb⟩)
    rw [lookupD, hnone] at hcurr
    simp at hcurr
  have hnames : s ∈ firstDedup (prevL.map (·.1) ++ nowL.map (·.1)) :=
    (mem_firstDedup s _).mpr (List.mem_append.mpr (Or.inr hkey))
  constructor
  · refine ⟨{ service := s,
              previous_cost := round2 (lookupD prevL s),
              current_cost := round2 (lookupD nowL s),
              change_amount := round2 (lookupD nowL s - lookupD prevL s),
              change_percent := round1
                (if 0 < lookupD prevL s then
                  round2 (lookupD nowL s - lookupD prevL s) / lookupD prevL s
                    * 100
                 else if 0 < lookupD nowL s then 100 else 0) }, ?_, rfl, ?_, ?_⟩
    · rw [calc_movers]
      exact ((List.perm_insertionSort moverDesc _).mem_iff).mpr
        (List.mem_map.mpr ⟨s, hnames, rfl⟩)
    · rw [hprev, if_neg (lt_irrefl 0), if_pos hcurr]
      exact round1_hundred
    · rw [hprev, sub_zero]
  · rw [calc_movers]
    exact List.sorted_insertionSort moverDesc _

/-- C3 witness: a single new service is reported as a +100% mover. -/
theorem c3_calc_movers_new_service_full_mover_witness :
    lookupD [] "Lambda" = 0 ∧
    (0 : ℚ) < lookupD [("Lambda", 50)] "Lambda" ∧
    ((∃ m ∈ calc_movers [("Lambda", 50)] [], m.service = "Lambda" ∧
      m.change_percent = 100 ∧
      m.change_amount = round2 (lookupD [("Lambda", 50)] "Lambda")) ∧
    (calc_movers [("Lambda", 50)] []).Pairwise moverDesc) := by
  have h0 : lookupD [] "Lambda" = 0 := rfl
  have h50 : lookupD [("Lambda", 50)] "Lambda" = 50 := rfl
  refine ⟨h0, by rw [h50]; norm_num, ?_⟩
  exact c3_calc_movers_new_service_full_mover [("Lambda", 50)] [] "Lambda"
    h0 (by rw [h50]; norm_num)

/-! ## Claim C6 — the anomaly flag rule

Helper facts: a median of nonnegative values is nonnegative, hence the MAD
is nonnegative and `mad ≠ 0` coincides with the code's `mad > 0` guard. -/

theorem getD_nonneg :
    ∀ (l : List ℚ) (n : ℕ), (∀ x ∈ l, 0 ≤ x) → 0 ≤ l.getD n 0
  | [], _, _ => le_refl 0
  | a :: _, 0, h => h a (List.mem_cons_self a _)
  | _ :: l, n + 1, h =>
    getD_nonneg l n fun x hx => h x (List.mem_cons_of_mem _ hx)

theorem median_nonneg (l : List ℚ) (h : ∀ x ∈ l, 0 ≤ x) : 0 ≤ median l := by
  have hs : ∀ x ∈ l.insertionSort (· ≤ ·), 0 ≤ x := fun x hx =>
    h x ((List.perm_insertionSort _ l).mem_iff.mp hx)
  have hg : ∀ n, 0 ≤ (l.insertionSort (· ≤ ·)).getD n 0 := fun n =>
    getD_nonneg _ n hs
  simp only [median]
  split_ifs
  · exact le_refl 0
  · exact hg _
  · have h1 := hg (l.length / 2 - 1)
    have h2 := hg (l.length / 2)
    linarith

theorem madOf_nonneg (l : List ℚ) : 0 ≤ madOf l := by
  refine median_nonneg _ fun x hx => ?_
  obtain ⟨c, -, rfl⟩ := List.mem_map.mp hx
  exact abs_nonneg _

/-- The baseline series: all but the last 3 daily totals. -/
def baselineOf (dc : List (Int × ℚ)) : List ℚ :=
  (dc.map (·.2)).take (dc.length - 3)

/-- The recent window: the last 3 daily totals. -/
def recentOf (dc : List (Int × ℚ)) : List ℚ :=
  (dc.map (·.2)).drop (dc.length - 3)

/-- The robust z-score of recent day `i`:
`0.6745 * (day_cost - baseline_median) / mad`. -/
def zScoreOf (dc : List (Int × ℚ)) (i : ℕ) : ℚ :=
  6745/10000 * ((recentOf dc).getD i 0 - median (baselineOf dc))
    / madOf (baselineOf dc)

/-- The dollar delta of recent day `i` against the baseline median. -/
def deltaOf (dc : List (Int × ℚ)) (i : ℕ) : ℚ :=
  (recentOf dc).getD i 0 - median (baselineOf dc)

/-- The finding the claim predicts for a flagged day: severity CRITICAL iff
`|delta| ≥ 200` (else HIGH), confidence HIGH iff `|z| ≥ 3.0` (else MEDIUM),
monthly savings `|delta| * 30` for a cost increase and `0` otherwise. -/
def anomalyExpected (p : String) (dates : List Int) (n : ℕ)
    (med mad : ℚ) (i : ℕ) (x : ℚ) : Finding :=
  { ftype := .anomaly, resource_id := none, product := some p,
    day := some (dates.getD (n - (3 - i)) 0),
    severity := if 200 ≤ |x - med| then .critical else .high,
    confidence :=
      if 3 ≤ |6745/10000 * (x - med) / mad| then .high else .medium,
    monthly_savings_usd_est := if 0 < x - med then |x - med| * 30 else 0 }

/-- With a positive MAD, the per-day decision equals flag-iff-thresholds
with the claim's finding shape (the code's `abs(delta * 30)` equals the
claim's `|delta| * 30`). -/
theorem anomalyDayFinding_pos (p : String) (dates : List Int) (n : ℕ)
    (med mad : ℚ) (i : ℕ) (x : ℚ) (hm : 0 < mad) :
    anomalyDayFinding p dates n med mad i x =
      if 5/2 ≤ |6745/10000 * (x - med) / mad| ∧ 25 ≤ |x - med| then
        some (anomalyExpected p dates n med mad i x)
      else none := by
  have habs : |(x - med) * 30| = |x - med| * 30 := by
    rw [abs_mul]
    norm_num
  simp only [anomalyDayFinding, if_pos hm, anomalyExpected, habs]

/-- An existential over the three recent-day indices is a three-way
disjunction. -/
theorem exists_lt_three (P : ℕ → Prop) :
    (∃ i, i < 3 ∧ P i) ↔ P 0 ∨ P 1 ∨ P 2 := by
  constructor
  · rintro ⟨i, hi, hp⟩
    interval_cases i
    · exact Or.inl hp
    · exact Or.inr (Or.inl hp)
    · exact Or.inr (Or.inr hp)
  · rintro (h | h | h)
    exacts [⟨0, by omega, h⟩, ⟨1, by omega, h⟩, ⟨2, by omega, h⟩]

/-- Membership in the three-day scan, spelled out per day index. -/
theorem mem_anomalyScan_three (p : String) (dates : List Int) (n : ℕ)
    (med mad : ℚ) (hm : 0 < mad) (a b c : ℚ) (f : Finding) :
    f ∈ anomalyScan p dates n med mad 0 [a, b, c] ↔
      ∃ i, i < 3 ∧
        (5/2 ≤ |6745/10000 * ([a, b, c].getD i 0 - med) / mad| ∧
          25 ≤ |[a, b, c].getD i 0 - med|) ∧
        f = anomalyExpected p dates n med mad i ([a, b, c].getD i 0) := by
  rw [exists_lt_three]
  simp only [List.getD_cons_zero, List.getD_cons_succ]
  simp only [anomalyScan, anomalyDayFinding_pos p dates n med mad _ _ hm,
    List.append_nil, List.mem_append, Option.mem_toList, Option.mem_def]
  constructor
  · rintro (h | h | h)
    · split_ifs at h with hc
      exact Or.inl ⟨hc, (Option.some.inj h).symm⟩
    · split_ifs at h with hc
      exact Or.inr (Or.inl ⟨hc, (Option.some.inj h).symm⟩)
    · split_ifs at h with hc
      exact Or.inr (Or.inr ⟨hc, (Option.some.inj h).symm⟩)
  · rintro (⟨hc, rfl⟩ | ⟨hc, rfl⟩ | ⟨hc, rfl⟩)
    · exact Or.inl (by rw [if_pos hc])
    · refine Or.inr (Or.inl ?_)
      rw [if_pos hc]
    · refine Or.inr (Or.inr ?_)
      rw [if_pos hc]

/-- C6: for a product with at least 14 days of data and nonzero baseline
MAD, a recent day is flagged exactly when `|z| ≥ 2.5` and `|delta| ≥ 25`,
and the emitted finding carries exactly the claimed severity, confidence
and savings values. -/
theorem c6_anomaly_flag_rule (dc : List (Int × ℚ)) (product : String)
    (h14 : 14 ≤ dc.length) (hmad : madOf (baselineOf dc) ≠ 0) (f : Finding) :
    f ∈ detect_anomalies_for_product dc product ↔
      ∃ i, i < 3 ∧ (5/2 ≤ |zScoreOf dc i| ∧ 25 ≤ |deltaOf dc i|) ∧
        f = anomalyExpected product (dc.map (·.1)) dc.length
          (median (baselineOf dc)) (madOf (baselineOf dc)) i
          ((recentOf dc).getD i 0) := by
  have hmadpos : 0 < madOf (baselineOf dc) :=
    lt_of_le_of_ne (madOf_nonneg _) (Ne.symm hmad)
  have hlen3 : (recentOf dc).length = 3 := by
    simp only [recentOf, List.length_drop, List.length_map]
    omega
  obtain ⟨a, b, c, habc⟩ := List.length_eq_three.mp hlen3
  have habc' : (dc.map (·.2)).drop (dc.length - 3) = [a, b, c] := habc
  simp only [detect_anomalies_for_product, if_neg (by omega : ¬ dc.length < 14),
    List.length_map, if_pos (by omega : 7 ≤ dc.length)]
  simp only [zScoreOf, deltaOf, baselineOf, recentOf, List.length_map] at habc' ⊢
  simp only [habc']
  exact mem_anomalyScan_three product (dc.map (·.1)) dc.length _ _ hmadpos a b c f

/-- A 14-day series for one product: baseline 90,92,…,110 (median 100,
MAD 6) and recent window 100, 500, 100. -/
def c6SpikeSeries : List (Int × ℚ) :=
  [(1, 90), (2, 92), (3, 94), (4, 96), (5, 98), (6, 100), (7, 102),
   (8, 104), (9, 106), (10, 108), (11, 110), (12, 100), (13, 500),
   (14, 100)]

/-- C6 witness: the $500 day (index 1 of the recent window, z ≈ 44.97,
delta = 400) is flagged with the expected finding. -/
theorem c6_anomaly_flag_rule_witness :
    14 ≤ c6SpikeSeries.length ∧
    madOf (baselineOf c6SpikeSeries) ≠ 0 ∧
    anomalyExpected "EC2-Instance" (c6SpikeSeries.map (·.1))
        c6SpikeSeries.length (median (baselineOf c6SpikeSeries))
        (madOf (baselineOf c6SpikeSeries)) 1
        ((recentOf c6SpikeSeries).getD 1 0)
      ∈ detect_anomalies_for_product c6SpikeSeries "EC2-Instance" := by
  have hmed : median (baselineOf c6SpikeSeries) = 100 := by
    norm_num [baselineOf, c6SpikeSeries, median]
  have hmad : madOf (baselineOf c6SpikeSeries) = 6 := by
    norm_num [madOf, baselineOf, c6SpikeSeries, median, hmed]
  have hrec : (recentOf c6SpikeSeries).getD 1 0 = 500 := by
    norm_num [recentOf, c6SpikeSeries]
  have h14 : 14 ≤ c6SpikeSeries.length := by norm_num [c6SpikeSeries]
  have hne : madOf (baselineOf c6SpikeSeries) ≠ 0 := by
    rw [hmad]
    norm_num
  refine ⟨h14, hne, ?_⟩
  refine (c6_anomaly_flag_rule c6SpikeSeries "EC2-Instance" h14 hne _).mpr
    ⟨1, by omega, ⟨?_, ?_⟩, rfl⟩
  · rw [zScoreOf, hrec, hmed, hmad]
    rw [show (6745/10000 * ((500:ℚ) - 100) / 6) = 1349/30 by norm_num]
    rw [abs_of_nonneg (by norm_num)]
    norm_num
  · rw [deltaOf, hrec, hmed]
    rw [show ((500:ℚ) - 100) = 400 by norm_num]
    rw [abs_of_nonneg (by norm_num)]
    norm_num

/-! ## Claim C9 — key insights

`get_key_insights` sorts the daily totals by **descending daily total**
(`$sort {daily_total: -1}`), then computes `daily_avg_recent` from
`daily_results[-7:]` — the last 7 entries of the cost-sorted list, i.e. the
7 *cheapest* days of the window, not the 7 most recent calendar days the
claim (and the variable name) describe. -/

/-- A 14-day window (window 30d, today 100): the older week (days 80–86)
costs $10/day, the most recent week (days 87–93) costs $200/day. -/
def c9Store : Store :=
  { cost_daily :=
      [{ product := "EC2-Instance", resource_id := none, date := 80, amount_usd := 10 },
       { product := "EC2-Instance", resource_id := none, date := 81, amount_usd := 10 },
       { product := "EC2-Instance", resource_id := none, date := 82, amount_usd := 10 },
       { product := "EC2-Instance", resource_id := none, date := 83, amount_usd := 10 },
       { product := "EC2-Instance", resource_id := none, date := 84, amount_usd := 10 },
       { product := "EC2-Instance", resource_id := none, date := 85, amount_usd := 10 },
       { product := "EC2-Instance", resource_id := none, date := 86, amount_usd := 10 },
       { product := "EC2-Instance", resource_id := none, date := 87, amount_usd := 200 },
       { product := "EC2-Instance", resource_id := none, date := 88, amount_usd := 200 },
       { product := "EC2-Instance", resource_id := none, date := 89, amount_usd := 200 },
       { product := "EC2-Instance", resource_id := none, date := 90, amount_usd := 200 },
       { product := "EC2-Instance", resource_id := none, date := 91, amount_usd := 200 },
       { product := "EC2-Instance", resource_id := none, date := 92, amount_usd := 200 },
       { product := "EC2-Instance", resource_id := none, date := 93, amount_usd := 200 }],
    util_hourly := [], resources := [] }

/-- C9: on a window whose 7 most recent days average $200/day while the 7
cheapest days average $10/day (month-to-date $1470, day of month 15), the
code projects `1470 + 10 * 15 = 1620`, whereas the claimed trailing-7-day
average projects `1470 + 200 * 15 = 4470`; the highest-single-day half of
the claim does hold (day 87, $200). -/
theorem c9_projection_uses_cheapest_days :
    (get_key_insights c9Store 100 30 15).projected_month_end = 1620 ∧
    (get_key_insights c9Store 100 30 15).mtd_actual = 1470 ∧
    (get_key_insights c9Store 100 30 15).highest_day_amount = 200 ∧
    (get_key_insights c9Store 100 30 15).highest_day_date = 87 ∧
    (1470 + 200 * (30 - 15) : ℚ) = 4470 ∧
    (1620 : ℚ) ≠ 4470 := by
  have hsorted : dailyByCostDesc (c9Store.cost_daily.filter fun r =>
      (70 : Int) ≤ r.date) =
      [(87, 200), (88, 200), (89, 200), (90, 200), (91, 200), (92, 200),
       (93, 200), (80, 10), (81, 10), (82, 10), (83, 10), (84, 10),
       (85, 10), (86, 10)] := by
    norm_num [dailyByCostDesc, dailyGroups, c9Store, firstDedup, amountDesc]
  have hfloor1 : (⌊(1620 : ℚ) * 100 + 1/2⌋ : ℤ) = 162000 := by
    norm_num [Int.floor_eq_iff]
  have hfloor2 : (⌊(1470 : ℚ) * 100 + 1/2⌋ : ℤ) = 147000 := by
    norm_num [Int.floor_eq_iff]
  have hfloor3 : (⌊(200 : ℚ) * 100 + 1/2⌋ : ℤ) = 20000 := by
    norm_num [Int.floor_eq_iff]
  refine ⟨?_, ?_, ?_, ?_, by norm_num, by norm_num⟩ <;>
    norm_num [get_key_insights, hsorted, round2, hfloor1, hfloor2, hfloor3]

/-! ## Claim C10 — service breakdown totals and percentages

Rounding-error bounds for the half-up decimal roundings. -/

theorem round1_err (x : ℚ) : |round1 x - x| ≤ 1/20 := by
  have h1 : ((⌊x * 10 + 1/2⌋ : ℤ) : ℚ) ≤ x * 10 + 1/2 := Int.floor_le _
  have h2 : x * 10 + 1/2 < (⌊x * 10 + 1/2⌋ : ℤ) + 1 := Int.lt_floor_add_one _
  rw [round1, abs_le]
  constructor <;> [linarith; linarith]

theorem round2_err (x : ℚ) : |round2 x - x| ≤ 1/200 := by
  have h1 : ((⌊x * 100 + 1/2⌋ : ℤ) : ℚ) ≤ x * 100 + 1/2 := Int.floor_le _
  have h2 : x * 100 + 1/2 < (⌊x * 100 + 1/2⌋ : ℤ) + 1 := Int.lt_floor_add_one _
  rw [round2, abs_le]
  constructor <;> [linarith; linarith]

theorem sum_map_round1_err :
    ∀ l : List ℚ, |(l.map round1).sum - l.sum| ≤ l.length * (1/20)
  | [] => by simp
  | a :: l => by
    have h1 := round1_err a
    have h2 := sum_map_round1_err l
    have habs : |round1 a + (l.map round1).sum - (a + l.sum)|
        ≤ |round1 a - a| + |(l.map round1).sum - l.sum| := by
      have := abs_add (round1 a - a) ((l.map round1).sum - l.sum)
      calc |round1 a + (l.map round1).sum - (a + l.sum)|
          = |(round1 a - a) + ((l.map round1).sum - l.sum)| := by ring_nf
        _ ≤ _ := this
    simp only [List.map_cons, List.sum_cons, List.length_cons]
    push_cast
    linarith

theorem sum_map_round2_err :
    ∀ l : List ℚ, |(l.map round2).sum - l.sum| ≤ l.length * (1/200)
  | [] => by simp
  | a :: l => by
    have h1 := round2_err a
    have h2 := sum_map_round2_err l
    have habs : |round2 a + (l.map round2).sum - (a + l.sum)|
        ≤ |round2 a - a| + |(l.map round2).sum - l.sum| := by
      have := abs_add (round2 a - a) ((l.map round2).sum - l.sum)
      calc |round2 a + (l.map round2).sum - (a + l.sum)|
          = |(round2 a - a) + ((l.map round2).sum - l.sum)| := by ring_nf
        _ ≤ _ := this
    simp only [List.map_cons, List.sum_cons, List.length_cons]
    push_cast
    linarith

theorem sum_map_div_mul (T : ℚ) :
    ∀ l : List ℚ, (l.map fun a => a / T * 100).sum = l.sum / T * 100
  | [] => by simp
  | a :: l => by
    simp only [List.map_cons, List.sum_cons, sum_map_div_mul T l]
    ring

/-- C10 amended/structural content: the breakdown's `total` is the
2-decimal rounding of the raw sum over only the (at most 8) returned
entries, each percentage is taken relative to that top-8 raw sum, the
returned percentages sum to 100 within ±0.4, and the rounded total matches
the sum of the rounded `value` fields within 0.045 (they need not be
exactly equal). -/
theorem c10_breakdown_top8 (st : Store) (today days : Int)
    (ht : 0 < ((topServiceEntries st today days).map (·.2)).sum) :
    (get_service_breakdown st today days).total =
      round2 (((topServiceEntries st today days).map (·.2)).sum) ∧
    (get_service_breakdown st today days).data.length ≤ 8 ∧
    |((get_service_breakdown st today days).data.map (·.percentage)).sum
      - 100| ≤ 2/5 ∧
    |((get_service_breakdown st today days).data.map (·.value)).sum -
      (get_service_breakdown st today days).total| ≤ 9/200 := by
  set results := topServiceEntries st today days with hres
  set T : ℚ := (results.map (·.2)).sum with hT
  have hlen8 : results.length ≤ 8 := by
    rw [hres, topServiceEntries]
    exact (List.length_take_le _ _)
  have hdata : (get_service_breakdown st today days).data =
      results.map fun r =>
        { name := r.1, value := round2 r.2,
          percentage := round1 (r.2 / T * 100) : BreakdownEntry } := rfl
  have htotal : (get_service_breakdown st today days).total = round2 T := rfl
  have hpmap : ((get_service_breakdown st today days).data.map
      (·.percentage)) = ((results.map (·.2)).map fun a => a / T * 100).map
        round1 := by
    rw [hdata]
    simp [List.map_map]
  have hvmap : ((get_service_breakdown st today days).data.map (·.value)) =
      (results.map (·.2)).map round2 := by
    rw [hdata]
    simp [List.map_map]
  have hsum100 : ((results.map (·.2)).map fun a => a / T * 100).sum = 100 := by
    rw [sum_map_div_mul, ← hT, div_self (ne_of_gt ht)]
    norm_num
  refine ⟨htotal, ?_, ?_, ?_⟩
  · rw [hdata, List.length_map]
    exact hlen8
  · rw [hpmap]
    have herr := sum_map_round1_err ((results.map (·.2)).map fun a => a / T * 100)
    rw [hsum100] at herr
    have hlen : (((results.map (·.2)).map fun a => a / T * 100).length : ℚ)
        ≤ 8 := by
      simp only [List.length_map]
      exact_mod_cast hlen8
    calc |(((results.map (·.2)).map fun a => a / T * 100).map round1).sum - 100|
        ≤ (((results.map (·.2)).map fun a => a / T * 100).length : ℚ) * (1/20) :=
          herr
      _ ≤ 8 * (1/20) := by
          apply mul_le_mul_of_nonneg_right hlen
          norm_num
      _ = 2/5 := by norm_num
  · rw [hvmap, htotal]
    have herr := sum_map_round2_err (results.map (·.2))
    have hrt := round2_err T
    have hlen : ((results.map (·.2)).length : ℚ) ≤ 8 := by
      simp only [List.length_map]
      exact_mod_cast hlen8
    have herr8 : |((results.map (·.2)).map round2).sum - T| ≤ 8 * (1/200) := by
      calc |((results.map (·.2)).map round2).sum - T|
          ≤ ((results.map (·.2)).length : ℚ) * (1/200) := herr
        _ ≤ 8 * (1/200) := by
            apply mul_le_mul_of_nonneg_right hlen
            norm_num
    calc |((results.map (·.2)).map round2).sum - round2 T|
        = |(((results.map (·.2)).map round2).sum - T) - (round2 T - T)| := by
          ring_nf
      _ ≤ |((results.map (·.2)).map round2).sum - T| + |round2 T - T| :=
          abs_sub _ _
      _ ≤ 8 * (1/200) + 1/200 := add_le_add herr8 hrt
      _ = 9/200 := by norm_num

/-- A window with one product of raw cost $100: the top-8 sum is positive. -/
def c10OneProductStore : Store :=
  { cost_daily := [{ product := "RDS", resource_id := none, date := 95,
                     amount_usd := 100 }],
    util_hourly := [], resources := [] }

/-- C10 witness: the bounds instantiated on the one-product window. -/
theorem c10_breakdown_top8_witness :
    0 < ((topServiceEntries c10OneProductStore 100 30).map (·.2)).sum ∧
    ((get_service_breakdown c10OneProductStore 100 30).total =
      round2 (((topServiceEntries c10OneProductStore 100 30).map (·.2)).sum) ∧
    (get_service_breakdown c10OneProductStore 100 30).data.length ≤ 8 ∧
    |((get_service_breakdown c10OneProductStore 100 30).data.map
      (·.percentage)).sum - 100| ≤ 2/5 ∧
    |((get_service_breakdown c10OneProductStore 100 30).data.map
      (·.value)).sum -
      (get_service_breakdown c10OneProductStore 100 30).total| ≤ 9/200) := by
  have ht : 0 < ((topServiceEntries c10OneProductStore 100 30).map (·.2)).sum := by
    norm_num [topServiceEntries, groupByProduct, c10OneProductStore,
      firstDedup, amountDesc]
  exact ⟨ht, c10_breakdown_top8 c10OneProductStore 100 30 ht⟩

/-- Two products, each with raw window cost $1.004. -/
def c10CentStore : Store :=
  { cost_daily :=
      [{ product := "A", resource_id := none, date := 95,
         amount_usd := 251/250 },
       { product := "B", resource_id := none, date := 95,
         amount_usd := 251/250 }],
    util_hourly := [], resources := [] }

/-- C10 counterexample: with two services of raw cost $1.004 each, the
returned total is `round(2.008, 2) = 2.01` while the returned `value`
fields are `round(1.004, 2) = 1.00` each, summing to 2.00 — the "total
equals the sum of the value fields" part of the claim fails at cent level
(Python floats give the same numbers at this input). -/
theorem c10_total_differs_from_value_sum :
    (get_service_breakdown c10CentStore 100 30).total = 201/100 ∧
    ((get_service_breakdown c10CentStore 100 30).data.map (·.value)).sum
      = 2 ∧
    (2 : ℚ) ≠ 201/100 := by
  have htop : topServiceEntries c10CentStore 100 30 =
      [("A", 251/250), ("B", 251/250)] := by
    have e1 : (("B" : String) == "A") = false := rfl
    have e2 : (("A" : String) == "A") = true := rfl
    have e3 : (("B" : String) == "B") = true := rfl
    have e4 : (("A" : String) == "B") = false := rfl
    have e5 : (decide (("B" : String) = "A")) = false := rfl
    norm_num [topServiceEntries, groupByProduct, c10CentStore, firstDedup,
      amountDesc, e1, e2, e3, e4, e5]
  have hfl1 : (⌊(251/250 + (251/250 + 0) : ℚ) * 100 + 1/2⌋ : ℤ) = 201 := by
    norm_num [Int.floor_eq_iff]
  have hfl2 : (⌊(251/250 : ℚ) * 100 + 1/2⌋ : ℤ) = 100 := by
    norm_num [Int.floor_eq_iff]
  refine ⟨?_, ?_, by norm_num⟩ <;>
    norm_num [get_service_breakdown, htop, round2, hfl1, hfl2,
      Int.floor_eq_iff]

end CloudCostGuard
